import Mathlib

/-! FileCollector (llvm/Support/FileCollector.h)

A shallow embedding of the `llvm::FileCollector` class declared in
`llvm/include/llvm/Support/FileCollector.h`, together with the properties of
its seen-path tracker, its mapping accumulator and its copier.

The two member functions whose bodies live in the header, `markAsSeen` and
`addFileToMapping`, are translated line by line.  Members that the header only
declares (`addFile`, `addFileImpl`, `getRealPath`, `copyFiles`) and the
collaborating types of other headers (`StringSet`, `YAMLVFSWriter`) are modelled
from the specification; each such definition says so in its doc comment.

Strings (`StringRef`, `Twine`, `std::string`) are Lean `String`s.  The object
state is passed explicitly: a member function that mutates the collector
returns the new collector next to its C++ return value.  `Mutex` carries no
data and is not part of the sequential state.
-/

set_option autoImplicit false

namespace llvm

/-! ## Collaborating types -/

/-- Modelled from the spec: `StringSet<>` of `llvm/ADT/StringSet.h`, which is
not part of the sources at hand.  The specification describes the Seen set as
"a set of VirtualPath strings already recorded"; it is a finite set of keys. -/
structure StringSet where
  Keys : Finset String
deriving DecidableEq

/-- The default-constructed, empty `StringSet<>`. -/
def StringSet.empty : StringSet := ⟨∅⟩

/-- Modelled from the spec: `StringSet::insert(Key)`, reduced to the set after
the call and the `.second` member of the returned pair, which tells whether the
key was newly inserted ("a path is added to SeenSet exactly once"). -/
def StringSet.insert (S : StringSet) (Key : String) : StringSet × Bool :=
  (⟨Insert.insert Key S.Keys⟩, decide (Key ∉ S.Keys))

/-- Modelled from the spec: `YAMLVFSEntry` of `llvm/Support/VirtualFileSystem.h`:
"a (VirtualPath, RealPath, isDirectory) triple held by the Mapping
Accumulator". -/
structure YAMLVFSEntry where
  VPath : String
  RPath : String
  IsDirectory : Bool
deriving DecidableEq

/-- Modelled from the spec: `vfs::YAMLVFSWriter`, the mapping accumulator.  It
holds the mapping entries in the order in which they were recorded. -/
structure YAMLVFSWriter where
  Mappings : List YAMLVFSEntry
deriving DecidableEq

/-- Modelled from the spec: `YAMLVFSWriter::addFileMapping(VirtualPath, RealPath)`,
the file channel of the accumulator: it records one file entry. -/
def YAMLVFSWriter.addFileMapping (W : YAMLVFSWriter) (VirtualPath RealPath : String) :
    YAMLVFSWriter :=
  ⟨W.Mappings ++ [⟨VirtualPath, RealPath, false⟩]⟩

/-- Modelled from the spec: `YAMLVFSWriter::addDirectoryMapping(VirtualPath, RealPath)`,
the directory channel of the accumulator: it records one directory entry. -/
def YAMLVFSWriter.addDirectoryMapping (W : YAMLVFSWriter) (VirtualPath RealPath : String) :
    YAMLVFSWriter :=
  ⟨W.Mappings ++ [⟨VirtualPath, RealPath, true⟩]⟩

/-- The state of the file system as the collector queries it:
`sys::fs::is_directory(Path)` and `sys::fs::real_path(Path)`.  Both are
primitives outside the class and are taken as parameters. -/
structure FileSystem where
  is_directory : String → Bool
  real_path : String → Option String

/-! ## The collector -/

/-- The data members of `class FileCollector` (lines 76-89 of the header).
`SymlinkMap` is a `StringMap<std::string>`, kept as an association list. -/
structure FileCollector where
  Root : String
  OverlayRoot : String
  Seen : StringSet
  VFSWriter : YAMLVFSWriter
  SymlinkMap : List (String × String)
deriving DecidableEq

/-- The collector right after `FileCollector(Root, OverlayRoot)`: the two roots
are stored, the three containers are default-constructed. -/
def FileCollector.create (Root OverlayRoot : String) : FileCollector :=
  ⟨Root, OverlayRoot, StringSet.empty, ⟨[]⟩, []⟩

/-- The test `StringRef::empty()`: the length is zero. -/
def StringRef.empty (Path : String) : Bool := Path.length == 0

/-- The member `bool FileCollector::markAsSeen(StringRef Path)`, lines 51-55:
```
if (Path.empty())
  return false;
return Seen.insert(Path).second;
```
-/
def FileCollector.markAsSeen (C : FileCollector) (Path : String) : Bool × FileCollector :=
  if StringRef.empty Path then
    (false, C)
  else
    ((C.Seen.insert Path).2, { C with Seen := (C.Seen.insert Path).1 })

/-- The member
`void FileCollector::addFileToMapping(StringRef VirtualPath, StringRef RealPath)`,
lines 59-64:
```
if (sys::fs::is_directory(VirtualPath))
  VFSWriter.addDirectoryMapping(VirtualPath, RealPath);
else
  VFSWriter.addFileMapping(VirtualPath, RealPath);
```
-/
def FileCollector.addFileToMapping (C : FileCollector) (fs : FileSystem)
    (VirtualPath RealPath : String) : FileCollector :=
  if fs.is_directory VirtualPath then
    { C with VFSWriter := C.VFSWriter.addDirectoryMapping VirtualPath RealPath }
  else
    { C with VFSWriter := C.VFSWriter.addFileMapping VirtualPath RealPath }

/-- A run of `markAsSeen` calls, one per path of the list, in order: the answers
of the calls and the collector after the last one. -/
def FileCollector.markAllAsSeen (C : FileCollector) : List String → List Bool × FileCollector
  | [] => ([], C)
  | Path :: Rest =>
    ((C.markAsSeen Path).1 :: ((C.markAsSeen Path).2.markAllAsSeen Rest).1,
     ((C.markAsSeen Path).2.markAllAsSeen Rest).2)

/-! ## Adding files -/

/-- Modelled from the spec: `bool FileCollector::getRealPath(SrcPath, Result)`, whose
body is not part of the header.  Section 4.1: "On success, returns the resolved
path and caches it keyed by the original source path.  On failure [...] returns
a failure indication and does not poison the cache"; a cached value "is reused
for all subsequent lookups of the same path".  The `bool` and the out-parameter
`Result` together are an `Option String`. -/
def FileCollector.getRealPath (C : FileCollector) (fs : FileSystem) (SrcPath : String) :
    Option String × FileCollector :=
  match C.SymlinkMap.lookup SrcPath with
  | some RealPath => (some RealPath, C)
  | none =>
    match fs.real_path SrcPath with
    | some RealPath => (some RealPath, { C with SymlinkMap := (SrcPath, RealPath) :: C.SymlinkMap })
    | none => (none, C)

/-- Modelled from the spec: `void FileCollector::addFileImpl(StringRef SrcPath)`, whose
body is not part of the header.  The path is canonicalized and recorded with
its resolved real path (section 4.3); when it cannot be canonicalized "the path
is not added to the mapping" (section 7). -/
def FileCollector.addFileImpl (C : FileCollector) (fs : FileSystem) (SrcPath : String) :
    FileCollector :=
  match C.getRealPath fs SrcPath with
  | (some RealPath, C1) => C1.addFileToMapping fs SrcPath RealPath
  | (none, C1) => C1

/-- Modelled from the spec: `void FileCollector::addFile(const Twine &file)`, whose body
is not part of the header.  Section 4.2: `markAsSeen` "is the sole deduplication
gate: all add operations must consult it before doing any canonicalization or
mapping work". -/
def FileCollector.addFile (C : FileCollector) (fs : FileSystem) (file : String) :
    FileCollector :=
  match C.markAsSeen file with
  | (true, C1) => C1.addFileImpl fs file
  | (false, C1) => C1

/-- The collector after `N` calls of `addFile(file)` in a row. -/
def FileCollector.addFileTimes (C : FileCollector) (fs : FileSystem) (file : String) :
    Nat → FileCollector
  | 0 => C
  | N + 1 => (C.addFile fs file).addFileTimes fs file N

/-- The mapping entries recorded for the virtual path `Path`. -/
def FileCollector.entriesFor (C : FileCollector) (Path : String) : List YAMLVFSEntry :=
  C.VFSWriter.Mappings.filter (fun Entry => decide (Entry.VPath = Path))

/-! ## Copying files -/

/-- The file-system primitives the copier consumes, over a type `σ` of
file-system states and a type `ε` of error codes: `create_directories(path)`,
`copy(src, dst)`, the parent of a path, and the place under `Root` that mirrors
a real path.  They are outside the class and are taken as parameters.  A
primitive returns the state it leaves behind and, as `std::error_code`, the
error if it failed. -/
structure CopyPrimitives (σ ε : Type) where
  create_directories : σ → String → σ × Option ε
  copy_file : σ → String → String → σ × Option ε
  parent_path : String → String
  destination : String → String → String → String

/-- What a run of `copyFiles` leaves behind: the file system, the entries it
attempted to copy, in order, and the returned `std::error_code` (`none` is
success). -/
structure CopyOutcome (σ ε : Type) where
  Files : σ
  Attempted : List YAMLVFSEntry
  EC : Option ε

/-- Modelled from the spec: the copy of one entry inside `copyFiles`.  Section 4.5:
"copy its bytes into a path under Root that mirrors its relative structure
beneath OverlayRoot.  Directories are created (including intermediate parents)
as needed before files are copied into them." -/
def FileCollector.copyEntry {σ ε : Type} (C : FileCollector) (P : CopyPrimitives σ ε)
    (Files : σ) (Entry : YAMLVFSEntry) : σ × Option ε :=
  match P.create_directories Files
      (P.parent_path (P.destination C.Root C.OverlayRoot Entry.RPath)) with
  | (Files1, some EC) => (Files1, some EC)
  | (Files1, none) =>
    P.copy_file Files1 Entry.RPath (P.destination C.Root C.OverlayRoot Entry.RPath)

/-- Modelled from the spec: the loop of `copyFiles` over the accumulated entries.
Section 4.5: under stop-on-error "the first copy failure aborts the whole
operation and is returned to the caller"; under best-effort "failures are
recorded/skipped and the operation continues, returning the first error
encountered (if any) after attempting all entries". -/
def FileCollector.copyEntries {σ ε : Type} (C : FileCollector) (P : CopyPrimitives σ ε)
    (StopOnError : Bool) : σ → List YAMLVFSEntry → List YAMLVFSEntry → Option ε →
    CopyOutcome σ ε
  | Files, [], Attempted, FirstError => ⟨Files, Attempted, FirstError⟩
  | Files, Entry :: Rest, Attempted, FirstError =>
    match C.copyEntry P Files Entry with
    | (Files1, none) => C.copyEntries P StopOnError Files1 Rest (Attempted ++ [Entry]) FirstError
    | (Files1, some EC) =>
      if StopOnError then
        ⟨Files1, Attempted ++ [Entry], some EC⟩
      else
        C.copyEntries P StopOnError Files1 Rest (Attempted ++ [Entry])
          (match FirstError with
            | some Earlier => some Earlier
            | none => some EC)

/-- Modelled from the spec: `std::error_code FileCollector::copyFiles(bool StopOnError)`,
whose body is not part of the header.  `Root` "gets created in copyFiles unless
it already exists" (header, line 26), "as an explicit precondition check at the
start of the copy operation" (section 9); then every accumulated entry is
copied in turn. -/
def FileCollector.copyFiles {σ ε : Type} (C : FileCollector) (P : CopyPrimitives σ ε)
    (Files : σ) (StopOnError : Bool) : CopyOutcome σ ε :=
  match P.create_directories Files C.Root with
  | (Files1, some EC) => ⟨Files1, [], some EC⟩
  | (Files1, none) => C.copyEntries P StopOnError Files1 C.VFSWriter.Mappings [] none

/-- The default argument of `copyFiles`, line 40 of the header:
`std::error_code copyFiles(bool StopOnError = true);`. -/
def FileCollector.copyFiles.StopOnErrorDefault : Bool := true

/-- The call `copyFiles()` with no argument. -/
def FileCollector.copyFilesNoArgument {σ ε : Type} (C : FileCollector)
    (P : CopyPrimitives σ ε) (Files : σ) : CopyOutcome σ ε :=
  C.copyFiles P Files FileCollector.copyFiles.StopOnErrorDefault

/-- The file system after the entries of the list have been copied one after
another, when every one of them copies without error; `none` as soon as one of
them cannot be copied. -/
def FileCollector.copiedCleanly {σ ε : Type} (C : FileCollector) (P : CopyPrimitives σ ε) :
    σ → List YAMLVFSEntry → Option σ
  | Files, [] => some Files
  | Files, Entry :: Rest =>
    match C.copyEntry P Files Entry with
    | (Files1, none) => C.copiedCleanly P Files1 Rest
    | (_, some _) => none

/-! ## Concrete inputs used by the examples -/

/-- A file system in which `/usr/include` is the only directory and every path
other than `/gone` resolves to itself. -/
def exampleFS : FileSystem where
  is_directory := fun Path => Path == "/usr/include"
  real_path := fun Path => if Path == "/gone" then none else some Path

/-- A file system in which, next to `/usr/include`, the path `/out/a` is a
directory, and every path resolves to itself. -/
def exampleFSOut : FileSystem where
  is_directory := fun Path => Path == "/usr/include" || Path == "/out/a"
  real_path := fun Path => some Path

/-- Copy primitives over a file system given as the list of the paths that
exist: creating directories always succeeds, copying fails exactly when the
source does not exist, and the destination of `Path` under `Root` is
`Root ++ Path`. -/
def examplePrimitives : CopyPrimitives (List String) String where
  create_directories := fun Files _ => (Files, none)
  copy_file := fun Files Src Dst =>
    if Src ∈ Files then (Dst :: Files, none) else (Files, some ("cannot copy " ++ Src))
  parent_path := fun Path => Path
  destination := fun Root _ RealPath => Root ++ RealPath

/-- A collector with three recorded files `/a`, `/b` and `/c`. -/
def exampleCollector : FileCollector :=
  { Root := "/out", OverlayRoot := "/out",
    Seen := ⟨{"/a", "/b", "/c"}⟩,
    VFSWriter := ⟨[⟨"/a", "/a", false⟩, ⟨"/b", "/b", false⟩, ⟨"/c", "/c", false⟩]⟩,
    SymlinkMap := [] }

/-! ## Basic facts about the seen-path tracker -/

theorem StringRef.empty_iff (Path : String) : StringRef.empty Path = true ↔ Path = "" := by
  unfold StringRef.empty
  constructor
  · intro h
    have h0 : Path.length = 0 := by simpa using h
    cases Path with
    | mk data =>
      have h1 : data = [] := List.length_eq_zero.mp h0
      subst h1
      rfl
  · rintro rfl
    rfl

theorem FileCollector.markAsSeen_fst (C : FileCollector) (Path : String) :
    (C.markAsSeen Path).1 = decide (Path ≠ "" ∧ Path ∉ C.Seen.Keys) := by
  unfold FileCollector.markAsSeen
  by_cases h : Path = ""
  · subst h
    rw [if_pos ((StringRef.empty_iff "").2 rfl)]
    simp
  · have h1 : StringRef.empty Path = false := by
      simpa using mt (StringRef.empty_iff Path).1 h
    simp [h1, h, StringSet.insert]

theorem FileCollector.markAsSeen_Keys (C : FileCollector) (Path : String) :
    (C.markAsSeen Path).2.Seen.Keys
      = if Path = "" then C.Seen.Keys else Insert.insert Path C.Seen.Keys := by
  unfold FileCollector.markAsSeen
  by_cases h : Path = ""
  · subst h
    rw [if_pos ((StringRef.empty_iff "").2 rfl)]
    simp
  · have h1 : StringRef.empty Path = false := by
      simpa using mt (StringRef.empty_iff Path).1 h
    simp [h1, h, StringSet.insert]

theorem FileCollector.markAsSeen_empty (C : FileCollector) :
    C.markAsSeen "" = (false, C) := by
  unfold FileCollector.markAsSeen
  rw [if_pos ((StringRef.empty_iff "").2 rfl)]

theorem FileCollector.markAllAsSeen_Keys (C : FileCollector) (Paths : List String) :
    (C.markAllAsSeen Paths).2.Seen.Keys
      = C.Seen.Keys ∪ (Paths.filter (fun p => decide (p ≠ ""))).toFinset := by
  induction Paths generalizing C with
  | nil => simp [FileCollector.markAllAsSeen]
  | cons p ps ih =>
    simp only [FileCollector.markAllAsSeen]
    rw [ih, FileCollector.markAsSeen_Keys]
    by_cases h : p = ""
    · simp [h]
    · simp [h, List.filter_cons]

theorem FileCollector.markAllAsSeen_length (C : FileCollector) (Paths : List String) :
    (C.markAllAsSeen Paths).1.length = Paths.length := by
  induction Paths generalizing C with
  | nil => simp [FileCollector.markAllAsSeen]
  | cons p ps ih => simp [FileCollector.markAllAsSeen, ih]

/-- The answer of the `i`-th call of a run that starts from any collector: true
exactly for a non-empty path that is neither in `Seen` at the start nor among
the earlier paths of the run. -/
theorem FileCollector.markAllAsSeen_getElem? (C : FileCollector) (Paths : List String) (i : Nat) :
    (C.markAllAsSeen Paths).1[i]?
      = Paths[i]?.map (fun p => decide (p ≠ "" ∧ p ∉ C.Seen.Keys ∧ p ∉ Paths.take i)) := by
  induction Paths generalizing C i with
  | nil => simp [FileCollector.markAllAsSeen]
  | cons p ps ih =>
    cases i with
    | zero => simp [FileCollector.markAllAsSeen, FileCollector.markAsSeen_fst]
    | succ k =>
      simp only [FileCollector.markAllAsSeen, List.getElem?_cons_succ, List.take_succ_cons]
      rw [ih, FileCollector.markAsSeen_Keys]
      cases hq : ps[k]? with
      | none => rfl
      | some q =>
        simp only [Option.map_some', Option.some.injEq, decide_eq_decide]
        by_cases h : p = ""
        · subst h
          simp only [if_true, List.mem_cons, not_or]
          tauto
        · simp only [if_neg h, Finset.mem_insert, List.mem_cons, not_or]
          tauto

/-- The number of `true` answers of a run that starts from any collector. -/
theorem FileCollector.markAllAsSeen_count (C : FileCollector) (Paths : List String) :
    (C.markAllAsSeen Paths).1.count true
      = ((Paths.filter (fun p => decide (p ≠ ""))).toFinset \ C.Seen.Keys).card := by
  induction Paths generalizing C with
  | nil => simp [FileCollector.markAllAsSeen]
  | cons p ps ih =>
    simp only [FileCollector.markAllAsSeen, List.count_cons]
    rw [ih, FileCollector.markAsSeen_Keys, FileCollector.markAsSeen_fst]
    by_cases h : p = ""
    · subst h
      simp
    · have hf : (List.filter (fun p => decide (p ≠ "")) (p :: ps)).toFinset
          = Insert.insert p (List.filter (fun p => decide (p ≠ "")) ps).toFinset := by
        simp [List.filter_cons, h]
      rw [hf, if_neg h]
      generalize (List.filter (fun p => decide (p ≠ "")) ps).toFinset = A
      by_cases hs : p ∈ C.Seen.Keys
      · have e1 : Insert.insert p C.Seen.Keys = C.Seen.Keys := Finset.insert_eq_of_mem hs
        have e2 : (Insert.insert p A) \ C.Seen.Keys = A \ C.Seen.Keys := by
          ext x
          simp only [Finset.mem_sdiff, Finset.mem_insert]
          constructor
          · rintro ⟨hx | hx, hn⟩
            · subst hx; exact absurd hs hn
            · exact ⟨hx, hn⟩
          · rintro ⟨hx, hn⟩
            exact ⟨Or.inr hx, hn⟩
        rw [e1, e2]
        simp [h, hs]
      · have e2 : (Insert.insert p A) \ C.Seen.Keys
            = Insert.insert p (A \ Insert.insert p C.Seen.Keys) := by
          ext x
          simp only [Finset.mem_sdiff, Finset.mem_insert, not_or]
          constructor
          · rintro ⟨hx | hx, hn⟩
            · exact Or.inl hx
            · by_cases hxp : x = p
              · exact Or.inl hxp
              · exact Or.inr ⟨hx, hxp, hn⟩
          · rintro (hx | ⟨hx, _, hn⟩)
            · subst hx; exact ⟨Or.inl rfl, hs⟩
            · exact ⟨Or.inr hx, hn⟩
        have e3 : p ∉ A \ Insert.insert p C.Seen.Keys := by
          simp
        rw [e2, Finset.card_insert_of_not_mem e3]
        simp [h, hs]

/-- How often a path is answered `true` in a run that starts from any
collector. -/
theorem FileCollector.markAllAsSeen_zip_count (C : FileCollector) (Paths : List String)
    (p : String) :
    (Paths.zip (C.markAllAsSeen Paths).1).count (p, true)
      = if p ≠ "" ∧ p ∉ C.Seen.Keys ∧ p ∈ Paths then 1 else 0 := by
  induction Paths generalizing C with
  | nil => simp [FileCollector.markAllAsSeen]
  | cons q qs ih =>
    simp only [FileCollector.markAllAsSeen, List.zip_cons_cons, List.count_cons]
    rw [ih, FileCollector.markAsSeen_Keys, FileCollector.markAsSeen_fst]
    by_cases hq : q = p
    · subst hq
      by_cases h : q = ""
      · simp [h]
      · by_cases hs : q ∈ C.Seen.Keys
        · simp [h, hs]
        · simp [h, hs]
    · have hq2 : ¬ p = q := fun e => hq e.symm
      by_cases h : q = ""
      · subst h
        simp [hq, hq2]
      · simp [h, hq, hq2]

/-! ## Basic facts about adding files -/

theorem FileCollector.getRealPath_frame (C : FileCollector) (fs : FileSystem) (p : String) :
    (C.getRealPath fs p).2.Seen = C.Seen ∧ (C.getRealPath fs p).2.VFSWriter = C.VFSWriter := by
  unfold FileCollector.getRealPath
  cases C.SymlinkMap.lookup p with
  | some r => exact ⟨rfl, rfl⟩
  | none =>
    cases fs.real_path p with
    | some r => exact ⟨rfl, rfl⟩
    | none => exact ⟨rfl, rfl⟩

theorem FileCollector.addFileToMapping_Seen (C : FileCollector) (fs : FileSystem)
    (V R : String) : (C.addFileToMapping fs V R).Seen = C.Seen := by
  unfold FileCollector.addFileToMapping
  split <;> rfl

theorem FileCollector.addFileToMapping_Mappings (C : FileCollector) (fs : FileSystem)
    (V R : String) :
    (C.addFileToMapping fs V R).VFSWriter.Mappings
      = C.VFSWriter.Mappings ++ [⟨V, R, fs.is_directory V⟩] := by
  unfold FileCollector.addFileToMapping
  cases h : fs.is_directory V <;>
    simp [YAMLVFSWriter.addFileMapping, YAMLVFSWriter.addDirectoryMapping]

theorem FileCollector.addFileImpl_Seen (C : FileCollector) (fs : FileSystem) (p : String) :
    (C.addFileImpl fs p).Seen = C.Seen := by
  unfold FileCollector.addFileImpl
  have h := (FileCollector.getRealPath_frame C fs p).1
  rcases hg : C.getRealPath fs p with ⟨r, C1⟩
  rw [hg] at h
  cases r with
  | some r => simpa [FileCollector.addFileToMapping_Seen] using h
  | none => simpa using h

theorem FileCollector.addFileImpl_entriesFor (C : FileCollector) (fs : FileSystem) (p : String) :
    ((C.addFileImpl fs p).entriesFor p).length
      = (C.entriesFor p).length + (if (C.getRealPath fs p).1.isSome then 1 else 0) := by
  unfold FileCollector.addFileImpl FileCollector.entriesFor
  have h := (FileCollector.getRealPath_frame C fs p).2
  rcases hg : C.getRealPath fs p with ⟨r, C1⟩
  rw [hg] at h
  simp only at h
  cases r with
  | some r => simp [FileCollector.addFileToMapping_Mappings, h]
  | none => simp [h]

theorem FileCollector.addFile_of_seen (C : FileCollector) (fs : FileSystem) (p : String)
    (h : p = "" ∨ p ∈ C.Seen.Keys) : C.addFile fs p = C := by
  have h1 : (C.markAsSeen p).1 = false := by
    rw [FileCollector.markAsSeen_fst]
    rcases h with h | h <;> simp [h]
  have h2 : (C.markAsSeen p).2 = C := by
    unfold FileCollector.markAsSeen
    by_cases he : StringRef.empty p = true
    · rw [if_pos he]
    · rw [if_neg he]
      have hp : p ≠ "" := fun e => he ((StringRef.empty_iff p).2 e)
      have hm : p ∈ C.Seen.Keys := h.resolve_left hp
      simp [StringSet.insert, Finset.insert_eq_of_mem hm]
  unfold FileCollector.addFile
  rcases hm : C.markAsSeen p with ⟨b, C1⟩
  rw [hm] at h1 h2
  simp only at h1 h2
  subst h1 h2
  rfl

theorem FileCollector.addFile_seen_after (C : FileCollector) (fs : FileSystem) (p : String) :
    p = "" ∨ p ∈ (C.addFile fs p).Seen.Keys := by
  by_cases hp : p = ""
  · exact Or.inl hp
  · right
    have hk := FileCollector.markAsSeen_Keys C p
    rw [if_neg hp] at hk
    unfold FileCollector.addFile
    rcases hm : C.markAsSeen p with ⟨b, C1⟩
    rw [hm] at hk
    simp only at hk
    cases b with
    | true => simp [FileCollector.addFileImpl_Seen, hk]
    | false => simp [hk]

theorem FileCollector.addFileTimes_fixed (D : FileCollector) (fs : FileSystem) (p : String)
    (h : D.addFile fs p = D) (N : Nat) : D.addFileTimes fs p N = D := by
  induction N with
  | zero => rfl
  | succ n ih => simp only [FileCollector.addFileTimes, h, ih]

theorem FileCollector.addFileTimes_eq_once (C : FileCollector) (fs : FileSystem) (p : String)
    (N : Nat) : C.addFileTimes fs p (N + 1) = C.addFile fs p := by
  simp only [FileCollector.addFileTimes]
  exact FileCollector.addFileTimes_fixed _ fs p
    (FileCollector.addFile_of_seen _ fs p (FileCollector.addFile_seen_after C fs p)) N

theorem FileCollector.addFile_entriesFor (C : FileCollector) (fs : FileSystem) (p : String) :
    ((C.addFile fs p).entriesFor p).length
      = (C.entriesFor p).length
        + (if p ≠ "" ∧ p ∉ C.Seen.Keys ∧ (C.getRealPath fs p).1.isSome then 1 else 0) := by
  by_cases hs : p = "" ∨ p ∈ C.Seen.Keys
  · rw [FileCollector.addFile_of_seen C fs p hs]
    rcases hs with hs | hs <;> simp [hs]
  · have hp : p ≠ "" := fun e => hs (Or.inl e)
    have hn : p ∉ C.Seen.Keys := fun e => hs (Or.inr e)
    have h1 : (C.markAsSeen p).1 = true := by
      rw [FileCollector.markAsSeen_fst]
      simp [hp, hn]
    have h2 : (C.markAsSeen p).2 = { C with Seen := (C.Seen.insert p).1 } := by
      unfold FileCollector.markAsSeen
      have he : ¬ StringRef.empty p = true := fun e => hp ((StringRef.empty_iff p).1 e)
      rw [if_neg he]
    unfold FileCollector.addFile
    rcases hm : C.markAsSeen p with ⟨b, C1⟩
    rw [hm] at h1 h2
    simp only at h1 h2
    subst h1 h2
    simp only
    rw [FileCollector.addFileImpl_entriesFor]
    have hg : (FileCollector.getRealPath { C with Seen := (C.Seen.insert p).1 } fs p).1
        = (C.getRealPath fs p).1 := by
      unfold FileCollector.getRealPath
      simp only
      cases C.SymlinkMap.lookup p with
      | some r => rfl
      | none =>
        cases fs.real_path p with
        | some r => rfl
        | none => rfl
    rw [hg]
    simp [hp, hn, FileCollector.entriesFor]

/-! ## Basic facts about copying -/

theorem FileCollector.copyEntries_of_copiedCleanly {σ ε : Type} (C : FileCollector)
    (P : CopyPrimitives σ ε) (StopOnError : Bool) (Pre Rest : List YAMLVFSEntry) :
    ∀ (Files0 Files1 : σ) (Attempted : List YAMLVFSEntry) (FirstError : Option ε),
      C.copiedCleanly P Files0 Pre = some Files1 →
      C.copyEntries P StopOnError Files0 (Pre ++ Rest) Attempted FirstError
        = C.copyEntries P StopOnError Files1 Rest (Attempted ++ Pre) FirstError := by
  induction Pre with
  | nil =>
    intro Files0 Files1 Attempted FirstError h
    simp only [FileCollector.copiedCleanly, Option.some.injEq] at h
    subst h
    simp
  | cons E Es ih =>
    intro Files0 Files1 Attempted FirstError h
    simp only [FileCollector.copiedCleanly] at h
    simp only [List.cons_append, FileCollector.copyEntries]
    rcases hc : C.copyEntry P Files0 E with ⟨F, e⟩
    rw [hc] at h
    cases e with
    | some ec => simp at h
    | none =>
      simp only at h ⊢
      have e := ih F Files1 (Attempted ++ [E]) FirstError h
      simp only [List.append_assoc, List.singleton_append] at e
      exact e

/-! ## The claims -/

/-- C1: for a non-empty path `p` and a collector whose Seen set does not contain
`p`, `markAsSeen(p)` returns true, and a later `markAsSeen(p)` returns false,
whatever `markAsSeen` calls (on other paths, on `p` itself or on the empty
path, any number of them) happened in between. -/
theorem C1_markAsSeen_first_true_then_false (C : FileCollector) (p : String)
    (Between : List String) (hp : p ≠ "") (hnew : p ∉ C.Seen.Keys) :
    (C.markAsSeen p).1 = true ∧
      (((C.markAsSeen p).2.markAllAsSeen Between).2.markAsSeen p).1 = false := by
  constructor
  · rw [FileCollector.markAsSeen_fst]
    simp [hp, hnew]
  · rw [FileCollector.markAsSeen_fst, FileCollector.markAllAsSeen_Keys,
      FileCollector.markAsSeen_Keys]
    simp [hp]

/-- C1, at a concrete input: on a fresh collector `markAsSeen("/a")` answers
true, and after further calls on `/b`, on the empty path and on `/c` it answers
false. -/
theorem C1_markAsSeen_first_true_then_false_witness :
    ((FileCollector.create "/out" "/out").markAsSeen "/a").1 = true ∧
      (((((FileCollector.create "/out" "/out").markAsSeen "/a").2.markAllAsSeen
        ["/b", "", "/c"]).2.markAsSeen "/a").1 = false) :=
  C1_markAsSeen_first_true_then_false (FileCollector.create "/out" "/out") "/a"
    ["/b", "", "/c"] (by decide) (by decide)

/-- C5: in every state of the collector, `markAsSeen` on the empty path returns
false and leaves the collector, its Seen set included, unchanged; the same
holds after any run of earlier `markAsSeen` calls. -/
theorem C5_markAsSeen_empty_rejected (C : FileCollector) (Earlier : List String) :
    C.markAsSeen "" = (false, C) ∧
      ((C.markAllAsSeen Earlier).2.markAsSeen "").1 = false ∧
      ((C.markAllAsSeen Earlier).2.markAsSeen "").2.Seen = (C.markAllAsSeen Earlier).2.Seen := by
  refine ⟨FileCollector.markAsSeen_empty C, ?_, ?_⟩
  · rw [FileCollector.markAsSeen_empty]
  · rw [FileCollector.markAsSeen_empty]

/-- C7: the Seen set only grows: every path in Seen before `markAsSeen(p)` is in
Seen after it, and a non-empty `p` is in Seen after the call. -/
theorem C7_markAsSeen_Seen_grows (C : FileCollector) (p : String) :
    C.Seen.Keys ⊆ (C.markAsSeen p).2.Seen.Keys ∧
      (p = "" ∨ p ∈ (C.markAsSeen p).2.Seen.Keys) := by
  rw [FileCollector.markAsSeen_Keys]
  by_cases h : p = ""
  · simp [h]
  · simp [h]

/-- C10: the empty path is never in the Seen set: a `markAsSeen` call puts it
there only if it was there before, no run of `markAsSeen` calls from an empty
Seen set leads to a state that contains it, and whatever a single
`markAsSeen(p)` adds to Seen is `p` itself. -/
theorem C10_empty_path_never_seen (C : FileCollector) (p : String) (Paths : List String) :
    ("" ∈ (C.markAsSeen p).2.Seen.Keys ↔ "" ∈ C.Seen.Keys) ∧
      "" ∉ (({ C with Seen := StringSet.empty }).markAllAsSeen Paths).2.Seen.Keys ∧
      (C.markAsSeen p).2.Seen.Keys \ C.Seen.Keys ⊆ {p} := by
  refine ⟨?_, ?_, ?_⟩
  · rw [FileCollector.markAsSeen_Keys]
    by_cases h : p = ""
    · simp [h]
    · have h2 : ¬ "" = p := fun e => h e.symm
      simp [h, h2]
  · rw [FileCollector.markAllAsSeen_Keys]
    simp [StringSet.empty]
  · rw [FileCollector.markAsSeen_Keys]
    by_cases h : p = ""
    · simp [h]
    · intro x
      simp only [if_neg h, Finset.mem_sdiff, Finset.mem_insert, Finset.mem_singleton]
      tauto

/-- C4: when a finite sequence of paths is fed to `markAsSeen` one after another
starting from an empty Seen set, there is one answer per path, the answer to
the `i`-th path is true exactly when that path is non-empty and does not occur
earlier in the sequence, a path `p` is answered true exactly once when it is a
non-empty path of the sequence and never otherwise, and the number of true
answers is the number of distinct non-empty paths of the sequence. -/
theorem C4_markAsSeen_true_once_per_path (C : FileCollector) (Paths : List String) (i : Nat)
    (p : String) :
    (({ C with Seen := StringSet.empty }).markAllAsSeen Paths).1.length = Paths.length ∧
      (({ C with Seen := StringSet.empty }).markAllAsSeen Paths).1[i]?
        = Paths[i]?.map (fun q => decide (q ≠ "" ∧ q ∉ Paths.take i)) ∧
      (Paths.zip (({ C with Seen := StringSet.empty }).markAllAsSeen Paths).1).count (p, true)
        = (if p ≠ "" ∧ p ∈ Paths then 1 else 0) ∧
      (({ C with Seen := StringSet.empty }).markAllAsSeen Paths).1.count true
        = (Paths.filter (fun q => decide (q ≠ ""))).toFinset.card := by
  refine ⟨FileCollector.markAllAsSeen_length _ _, ?_, ?_, ?_⟩
  · rw [FileCollector.markAllAsSeen_getElem?]
    simp [StringSet.empty]
  · rw [FileCollector.markAllAsSeen_zip_count]
    simp [StringSet.empty]
  · rw [FileCollector.markAllAsSeen_count]
    simp [StringSet.empty]

/-- C2: `addFileToMapping(V, R)` records the entry `(V, R)` with the directory
flag equal to the directory status of `V`: through the directory channel exactly
when `V` denotes a directory at the time of the call, through the file channel
exactly when it does not.  Two file systems that agree on whether `V` is a
directory give the same result, whatever they say about `R` or any other
path. -/
theorem C2_addFileToMapping_classifies_by_virtual_path (C : FileCollector)
    (fs fs2 : FileSystem) (V R : String) (hV : fs2.is_directory V = fs.is_directory V) :
    (C.addFileToMapping fs V R).VFSWriter.Mappings
        = C.VFSWriter.Mappings ++ [⟨V, R, fs.is_directory V⟩] ∧
      ((C.addFileToMapping fs V R).VFSWriter = C.VFSWriter.addDirectoryMapping V R
        ↔ fs.is_directory V = true) ∧
      ((C.addFileToMapping fs V R).VFSWriter = C.VFSWriter.addFileMapping V R
        ↔ fs.is_directory V = false) ∧
      C.addFileToMapping fs2 V R = C.addFileToMapping fs V R := by
  refine ⟨FileCollector.addFileToMapping_Mappings C fs V R, ?_, ?_, ?_⟩
  · unfold FileCollector.addFileToMapping
    cases h : fs.is_directory V <;>
      simp [YAMLVFSWriter.addFileMapping, YAMLVFSWriter.addDirectoryMapping]
  · unfold FileCollector.addFileToMapping
    cases h : fs.is_directory V <;>
      simp [YAMLVFSWriter.addFileMapping, YAMLVFSWriter.addDirectoryMapping]
  · unfold FileCollector.addFileToMapping
    rw [hV]

/-- C2, at a concrete input: `/a` is a file both in `exampleFS` and in
`exampleFSOut`, while `/out/a` is a directory only in the latter; in both the
entry recorded for `(/a, /out/a)` is a file entry. -/
theorem C2_addFileToMapping_classifies_by_virtual_path_witness :
    exampleFSOut.is_directory "/out/a" = true ∧ exampleFS.is_directory "/out/a" = false ∧
      (exampleCollector.addFileToMapping exampleFSOut "/a" "/out/a").VFSWriter.Mappings
        = exampleCollector.VFSWriter.Mappings ++ [⟨"/a", "/out/a", false⟩] ∧
      exampleCollector.addFileToMapping exampleFS "/a" "/out/a"
        = exampleCollector.addFileToMapping exampleFSOut "/a" "/out/a" :=
  ⟨by decide, by decide,
    (C2_addFileToMapping_classifies_by_virtual_path exampleCollector exampleFSOut exampleFS
      "/a" "/out/a" (by decide)).1,
    (C2_addFileToMapping_classifies_by_virtual_path exampleCollector exampleFSOut exampleFS
      "/a" "/out/a" (by decide)).2.2.2⟩

/-- C9: `addFileToMapping(V, R)` adds exactly one entry to the mapping
accumulator, a file entry or a directory entry for `V` and `R` as given; the
entries accumulated before are kept, in place and unchanged; the Seen set, the
symlink cache and the two roots are not touched. -/
theorem C9_addFileToMapping_adds_one_entry (C : FileCollector) (fs : FileSystem)
    (V R : String) :
    (∃ IsDirectory : Bool, (C.addFileToMapping fs V R).VFSWriter.Mappings
        = C.VFSWriter.Mappings ++ [⟨V, R, IsDirectory⟩]) ∧
      (C.addFileToMapping fs V R).VFSWriter.Mappings.length
        = C.VFSWriter.Mappings.length + 1 ∧
      (C.addFileToMapping fs V R).VFSWriter.Mappings.take C.VFSWriter.Mappings.length
        = C.VFSWriter.Mappings ∧
      (C.addFileToMapping fs V R).Seen = C.Seen ∧
      (C.addFileToMapping fs V R).SymlinkMap = C.SymlinkMap ∧
      (C.addFileToMapping fs V R).Root = C.Root ∧
      (C.addFileToMapping fs V R).OverlayRoot = C.OverlayRoot := by
  refine ⟨⟨fs.is_directory V, FileCollector.addFileToMapping_Mappings C fs V R⟩, ?_, ?_,
    FileCollector.addFileToMapping_Seen C fs V R, ?_, ?_, ?_⟩
  · rw [FileCollector.addFileToMapping_Mappings]
    simp
  · rw [FileCollector.addFileToMapping_Mappings]
    simp
  · unfold FileCollector.addFileToMapping
    split <;> rfl
  · unfold FileCollector.addFileToMapping
    split <;> rfl
  · unfold FileCollector.addFileToMapping
    split <;> rfl

/-- C3, as stated, fails: on a fresh collector three calls of `addFile` on the
empty path leave no mapping entry for it, not one; the same holds for a path
whose real path cannot be resolved. -/
theorem C3_addFile_exactly_one_entry_counterexample :
    ((FileCollector.create "/out" "/out").addFileTimes exampleFS "" 3).entriesFor "" = [] ∧
      ¬ (((FileCollector.create "/out" "/out").addFileTimes exampleFS "" 3).entriesFor
          "").length = 1 ∧
      ((FileCollector.create "/out" "/out").addFileTimes exampleFS "/gone" 3).entriesFor
          "/gone" = [] := by
  decide

/-- C3, amended: for every path `p`, every collector and every `N ≥ 1`, calling
`addFile(p)` `N` times leaves the collector exactly as calling it once does.
The calls add one mapping entry for `p` when `p` is non-empty, not yet seen and
its real path resolves, and none otherwise; so a fresh collector ends with
exactly one entry for such a `p`. -/
theorem C3_addFile_repeated_is_once (C : FileCollector) (fs : FileSystem) (p : String)
    (N : Nat) (Root OverlayRoot : String) (hN : 1 ≤ N) :
    C.addFileTimes fs p N = C.addFile fs p ∧
      ((C.addFileTimes fs p N).entriesFor p).length
        = (C.entriesFor p).length
          + (if p ≠ "" ∧ p ∉ C.Seen.Keys ∧ (C.getRealPath fs p).1.isSome then 1 else 0) ∧
      (((FileCollector.create Root OverlayRoot).addFileTimes fs p N).entriesFor p).length
        = (if p ≠ "" ∧ (fs.real_path p).isSome then 1 else 0) := by
  obtain ⟨M, rfl⟩ : ∃ M, N = M + 1 := ⟨N - 1, by omega⟩
  refine ⟨FileCollector.addFileTimes_eq_once C fs p M, ?_, ?_⟩
  · rw [FileCollector.addFileTimes_eq_once, FileCollector.addFile_entriesFor]
  · rw [FileCollector.addFileTimes_eq_once, FileCollector.addFile_entriesFor]
    have hg : ((FileCollector.create Root OverlayRoot).getRealPath fs p).1 = fs.real_path p := by
      unfold FileCollector.getRealPath FileCollector.create
      simp only [List.lookup]
      cases fs.real_path p <;> rfl
    rw [hg]
    simp [FileCollector.create, FileCollector.entriesFor, StringSet.empty]

/-- C3, amended, at a concrete input: three calls of `addFile("/a")` on a fresh
collector leave what one call leaves, with exactly one entry for `/a`. -/
theorem C3_addFile_repeated_is_once_witness :
    (FileCollector.create "/out" "/out").addFileTimes exampleFS "/a" 3
        = (FileCollector.create "/out" "/out").addFile exampleFS "/a" ∧
      (((FileCollector.create "/out" "/out").addFileTimes exampleFS "/a" 3).entriesFor
          "/a").length = 1 :=
  ⟨(C3_addFile_repeated_is_once (FileCollector.create "/out" "/out") exampleFS "/a" 3
      "/out" "/out" (by decide)).1,
    (C3_addFile_repeated_is_once (FileCollector.create "/out" "/out") exampleFS "/a" 3
      "/out" "/out" (by decide)).2.2.trans (by decide)⟩

/-- C6: when the root directory is in place, the entries before `B` copy
without error and `B` cannot be copied, `copyFiles(true)` returns the error of
`B`, has attempted the entries up to and including `B` and none of the later
ones, and leaves the file system as the failed attempt on `B` left it.
`copyFiles()` with no argument is `copyFiles(true)`. -/
theorem C6_copyFiles_stops_at_first_failure {σ ε : Type} (C : FileCollector)
    (P : CopyPrimitives σ ε) (Files Files0 Files1 Files2 : σ)
    (Pre Post : List YAMLVFSEntry) (B : YAMLVFSEntry) (EC : ε)
    (hMappings : C.VFSWriter.Mappings = Pre ++ B :: Post)
    (hRoot : P.create_directories Files C.Root = (Files0, none))
    (hPre : C.copiedCleanly P Files0 Pre = some Files1)
    (hB : C.copyEntry P Files1 B = (Files2, some EC)) :
    C.copyFiles P Files true = ⟨Files2, Pre ++ [B], some EC⟩ ∧
      C.copyFilesNoArgument P Files = C.copyFiles P Files true := by
  refine ⟨?_, rfl⟩
  unfold FileCollector.copyFiles
  rw [hRoot, hMappings]
  simp only
  rw [FileCollector.copyEntries_of_copiedCleanly C P true Pre (B :: Post) Files0 Files1 [] none
    hPre]
  simp only [FileCollector.copyEntries, hB, if_true, List.nil_append]

/-- C6, at a concrete input: the entries are `/a`, `/b`, `/c` and the file `/b`
is gone; `copyFiles(true)` copies `/a`, fails on `/b` with the error of `/b`, and
never attempts `/c`. -/
theorem C6_copyFiles_stops_at_first_failure_witness :
    exampleCollector.copyFiles examplePrimitives ["/a", "/c"] true
        = ⟨["/out/a", "/a", "/c"], [⟨"/a", "/a", false⟩, ⟨"/b", "/b", false⟩],
            some "cannot copy /b"⟩ ∧
      exampleCollector.copyFilesNoArgument examplePrimitives ["/a", "/c"]
        = exampleCollector.copyFiles examplePrimitives ["/a", "/c"] true :=
  C6_copyFiles_stops_at_first_failure exampleCollector examplePrimitives
    ["/a", "/c"] ["/a", "/c"] ["/out/a", "/a", "/c"] ["/out/a", "/a", "/c"]
    [⟨"/a", "/a", false⟩] [⟨"/c", "/c", false⟩] ⟨"/b", "/b", false⟩ "cannot copy /b"
    (by decide) (by decide) (by decide) (by decide)

end llvm
